import Mathlib

/-!
Shallow embedding of the WebSocket relay of Deep-Live-Cam-Server
(src/modules/websocket_server.py and src/modules/websocket_client.py).

Connections are abstract identifiers; image payloads, decoded frames,
identity descriptors and encoded output are type parameters, because the
relay layer treats them opaquely.  Fallible operations (base64/JPEG
decode, the face-swap pipeline, socket sends) are modelled as
Option/Except-valued parameters or explicit outcome tokens.  Wall-clock
timestamps and the floating-point processing_time_avg statistic are
omitted: no claim mentions them and they do not influence control flow.
Python queue.Queue instances are modelled as lists (front of the list is
the front of the queue) with their maxsize bound checked explicitly; a
put that would time out on a full queue is modelled as an immediate drop.
-/

/-- Abstract connection identifier (a websocket object in the source). -/
abbrev ConnId := Nat

namespace FaceSwapServer

/-- Per-client bookkeeping from register_client (websocket_server.py:78-82).
The connected_at / last_frame_time wall-clock fields are omitted. -/
structure ClientInfo where
  frames_sent : Nat
deriving Repr, DecidableEq

/-- Server statistics dictionary (websocket_server.py:42-48); the
floating-point processing_time_avg field is omitted. -/
structure ServerStats where
  frames_received : Nat
  frames_processed : Nat
  frames_sent : Nat
  connected_clients : Nat
deriving Repr, DecidableEq

/-- Queue capacity of both frame queues (websocket_server.py:32-33). -/
def queueCapacity : Nat := 50

/-- Maximum accepted message size in bytes: 10 MiB
(websocket_server.py:235). -/
def maxMessageSize : Nat := 10 * 1024 * 1024

/-- State of a FaceSwapServer (websocket_server.py:22-52).  `clients` is a
set, kept as a duplicate-free list; the two dictionaries are association
lists; the two queues are lists bounded by `queueCapacity`. -/
structure ServerState (Face Frame : Type) where
  clients : List ConnId
  client_info : List (ConnId × ClientInfo)
  client_source_faces : List (ConnId × Face)
  raw_frames_queue : List (ConnId × Frame)
  processed_frames_queue : List (ConnId × Frame)
  stats : ServerStats
  processors_initialized : Bool
deriving Repr, DecidableEq

variable {Data Face Frame Enc : Type}

/-- Dictionary lookup `self.client_source_faces[websocket]` /
`websocket in self.client_source_faces`. -/
def lookupFace (faces : List (ConnId × Face)) (c : ConnId) : Option Face :=
  (faces.find? (fun p => p.1 == c)).map Prod.snd

/-- Dictionary assignment `self.client_source_faces[websocket] = face`. -/
def storeFace (faces : List (ConnId × Face)) (c : ConnId) (f : Face) :
    List (ConnId × Face) :=
  faces.filter (fun p => p.1 ≠ c) ++ [(c, f)]

/-- register_client (websocket_server.py:76-84): add to the client set,
create the info record, refresh the connected_clients statistic. -/
def register_client (s : ServerState Face Frame) (c : ConnId) :
    ServerState Face Frame :=
  let cl := if c ∈ s.clients then s.clients else s.clients ++ [c]
  { s with
    clients := cl
    client_info := s.client_info.filter (fun p => p.1 ≠ c) ++ [(c, ⟨0⟩)]
    stats := { s.stats with connected_clients := cl.length } }

/-- unregister_client (websocket_server.py:86-93): discard from the client
set, delete both dictionary entries, refresh connected_clients. -/
def unregister_client (s : ServerState Face Frame) (c : ConnId) :
    ServerState Face Frame :=
  let cl := s.clients.filter (fun x => x ≠ c)
  { s with
    clients := cl
    client_info := s.client_info.filter (fun p => p.1 ≠ c)
    client_source_faces := s.client_source_faces.filter (fun p => p.1 ≠ c)
    stats := { s.stats with connected_clients := cl.length } }

/-- The for-loop over self.frame_processors (websocket_server.py:140-145):
each processor maps the accumulated frame, any processor may raise
(modelled as `Except.error`). -/
def runProcessors (ps : List (Face → Frame → Except Unit Frame))
    (face : Face) (f : Frame) : Except Unit Frame :=
  match ps with
  | [] => .ok f
  | p :: rest =>
    match p face f with
    | .ok f2 => runProcessors rest face f2
    | .error e => .error e

/-- process_frame (websocket_server.py:122-156).  Returns the processed
frame, the unmodified input frame on the two pass-through branches, or
`none` when the pipeline raises (the except-branch returns None). -/
def process_frame (processors : List (Face → Frame → Except Unit Frame))
    (s : ServerState Face Frame) (frame : Frame) (c : ConnId) :
    Option Frame :=
  if !s.processors_initialized then some frame
  else
    match lookupFace s.client_source_faces c with
    | none => some frame
    | some face =>
      match runProcessors processors face frame with
      | .ok pf => some pf
      | .error _ => none

/-- One loop iteration of frame_processor_worker
(websocket_server.py:158-184): dequeue a (connection, frame) pair, process
it, and enqueue the result to the processed queue keyed by the same
connection unless the result is None or the processed queue is full.  An
empty queue (queue.Empty) leaves the state unchanged.  Queued frames are
never None: handle_client enqueues only successfully decoded frames. -/
def frame_processor_worker_step
    (processors : List (Face → Frame → Except Unit Frame))
    (s : ServerState Face Frame) : ServerState Face Frame :=
  match s.raw_frames_queue with
  | [] => s
  | (c, f) :: rest =>
    let s1 := { s with raw_frames_queue := rest }
    match process_frame processors s1 f c with
    | some pf =>
      if s1.processed_frames_queue.length < queueCapacity then
        { s1 with
          processed_frames_queue := s1.processed_frames_queue ++ [(c, pf)]
          stats := { s1.stats with
                     frames_processed := s1.stats.frames_processed + 1 } }
      else s1
    | none => s1

/-- Outcome of `await target_client.send(message)` in the distributor
(websocket_server.py:205-214). -/
inductive SendOutcome where
  | ok
  | connectionClosed
  | otherError
deriving Repr, DecidableEq

/-- `self.client_info[target_client]['frames_sent'] += 1`
(websocket_server.py:207). -/
def bumpClientInfo (info : List (ConnId × ClientInfo)) (c : ConnId) :
    List (ConnId × ClientInfo) :=
  info.map (fun p => if p.1 = c then (p.1, ⟨p.2.frames_sent + 1⟩) else p)

/-- One loop iteration of frame_distributor_worker
(websocket_server.py:186-223): dequeue a (connection, frame) pair, encode
it, and send it to that connection only, if it is still registered.  On
ConnectionClosed the connection is unregistered; on any other send error
it is logged and the connection is unregistered as well
(websocket_server.py:210-214).  Returns the new state and the delivered
(target, processed frame) pair when the send succeeded. -/
def frame_distributor_step (encodeFrame : Frame → Option Enc)
    (outcome : SendOutcome) (s : ServerState Face Frame) :
    ServerState Face Frame × Option (ConnId × Frame) :=
  match s.processed_frames_queue with
  | [] => (s, none)
  | (c, pf) :: rest =>
    let s1 := { s with processed_frames_queue := rest }
    match encodeFrame pf with
    | none => (s1, none)
    | some _ =>
      if c ∈ s1.clients then
        match outcome with
        | .ok =>
          ({ s1 with
             client_info := bumpClientInfo s1.client_info c
             stats := { s1.stats with
                        frames_sent := s1.stats.frames_sent + 1 } },
           some (c, pf))
        | .connectionClosed => (unregister_client s1 c, none)
        | .otherError => (unregister_client s1 c, none)
      else (s1, none)

/-- A parsed inbound envelope (the json.loads result dispatched on
data.get('type'), websocket_server.py:239-323).  The payload of `frame`
and `source_face` is `none` when the 'data' key is absent or falsy. -/
inductive ParsedMsg (Data : Type) where
  | frame (data : Option Data)
  | source_face (data : Option Data)
  | stats_request
  | ping
  | unknown
deriving Repr, DecidableEq

/-- An inbound websocket message: its byte length and its parse result
(`none` models json.JSONDecodeError / UnicodeDecodeError). -/
structure InMsg (Data : Type) where
  size : Nat
  parsed : Option (ParsedMsg Data)
deriving Repr, DecidableEq

/-- Replies sent back on the same connection by handle_client.  The
source_face_confirmation carries status success (true) or error (false);
human-readable message strings are omitted. -/
inductive OutMsg where
  | source_face_confirmation (success : Bool)
  | statsReply
  | pong
deriving Repr, DecidableEq

/-- Dispatch of one inbound message in handle_client
(websocket_server.py:231-330).  `decodeFrame` models
FaceSwapServer.decode_frame (None on failure, websocket_server.py:95-108)
and `getOneFace` models modules.face_analyser.get_one_face.  Returns the
new state and the replies sent to the originating connection.  An
oversized message is dropped with `continue` (websocket_server.py:235-237);
a frame is enqueued only when the raw queue is below capacity, otherwise
dropped (queue.Full, websocket_server.py:248-255); a source_face whose
image fails to decode is only logged, with no reply
(websocket_server.py:289-290). -/
def handle_client_message (decodeFrame : Data → Option Frame)
    (getOneFace : Frame → Option Face)
    (s : ServerState Face Frame) (c : ConnId) (m : InMsg Data) :
    ServerState Face Frame × List OutMsg :=
  if m.size > maxMessageSize then (s, [])
  else
    match m.parsed with
    | none => (s, [])
    | some pm =>
      match pm with
      | .frame d =>
        match d with
        | none => (s, [])
        | some data =>
          match decodeFrame data with
          | none => (s, [])
          | some f =>
            if s.raw_frames_queue.length < queueCapacity then
              ({ s with
                 raw_frames_queue := s.raw_frames_queue ++ [(c, f)]
                 stats := { s.stats with
                            frames_received := s.stats.frames_received + 1 } },
               [])
            else (s, [])
      | .source_face d =>
        match d with
        | none => (s, [])
        | some data =>
          match decodeFrame data with
          | none => (s, [])
          | some img =>
            match getOneFace img with
            | some face =>
              ({ s with client_source_faces := storeFace s.client_source_faces c face },
               [.source_face_confirmation true])
            | none => (s, [.source_face_confirmation false])
      | .stats_request => (s, [.statsReply])
      | .ping => (s, [.pong])
      | .unknown => (s, [])

/-- External events driving the server: a client connecting
(register_client), a message arriving on a connection, one processor
worker iteration, one distributor iteration with a given send outcome,
and a client disconnecting (the finally-block unregister). -/
inductive Event (Data : Type) where
  | connect (c : ConnId)
  | clientMsg (c : ConnId) (m : InMsg Data)
  | procStep
  | distStep (outcome : SendOutcome)
  | disconnect (c : ConnId)
deriving Repr, DecidableEq

/-- One server transition for one event; the second component lists the
processed_frame envelopes delivered by this event (at most one, from a
successful distributor send). -/
def serverStep (decodeFrame : Data → Option Frame)
    (getOneFace : Frame → Option Face)
    (processors : List (Face → Frame → Except Unit Frame))
    (encodeFrame : Frame → Option Enc)
    (s : ServerState Face Frame) (e : Event Data) :
    ServerState Face Frame × List (ConnId × Frame) :=
  match e with
  | .connect c => (register_client s c, [])
  | .disconnect c => (unregister_client s c, [])
  | .clientMsg c m => ((handle_client_message decodeFrame getOneFace s c m).1, [])
  | .procStep => (frame_processor_worker_step processors s, [])
  | .distStep outcome =>
    let r := frame_distributor_step encodeFrame outcome s
    (r.1, r.2.toList)

/-- Run the server over a sequence of events, accumulating every delivered
processed_frame envelope as a (target connection, frame) pair. -/
def serverRun (decodeFrame : Data → Option Frame)
    (getOneFace : Frame → Option Face)
    (processors : List (Face → Frame → Except Unit Frame))
    (encodeFrame : Frame → Option Enc)
    (s : ServerState Face Frame) (events : List (Event Data)) :
    ServerState Face Frame × List (ConnId × Frame) :=
  match events with
  | [] => (s, [])
  | e :: rest =>
    let r := serverStep decodeFrame getOneFace processors encodeFrame s e
    let r2 := serverRun decodeFrame getOneFace processors encodeFrame r.1 rest
    (r2.1, r.2 ++ r2.2)

/-- Both queues pair every frame with its originating connection, as
witnessed by an abstract provenance function `orig`. -/
def QueuesTagged (orig : Frame → ConnId) (s : ServerState Face Frame) : Prop :=
  (∀ p ∈ s.raw_frames_queue, orig p.2 = p.1) ∧
  (∀ p ∈ s.processed_frames_queue, orig p.2 = p.1)

/-- An event is provenance-respecting: any frame decoded from a frame
message carried by connection c originates from c. -/
def EventTagged (decodeFrame : Data → Option Frame) (orig : Frame → ConnId) :
    Event Data → Prop
  | .clientMsg c m =>
      ∀ d f, m.parsed = some (.frame (some d)) → decodeFrame d = some f →
        orig f = c
  | _ => True

/-- The pipeline preserves provenance: processors transform frame content,
never the association to a client. -/
def ProcessorsTagPreserving (orig : Frame → ConnId)
    (processors : List (Face → Frame → Except Unit Frame)) : Prop :=
  ∀ p ∈ processors, ∀ face f f2, p face f = .ok f2 → orig f2 = orig f

end FaceSwapServer

namespace FaceSwapClient

/-- `min(2 ** attempt, 60)` in auto_reconnect (websocket_client.py:346). -/
def backoffBase (attempt : Nat) : ℚ :=
  min ((2 : ℚ) ^ attempt) 60

/-- The reconnect delay (websocket_client.py:346-348):
base + uniform(0.1, 0.3) * base, where `jitter` is the uniform draw. -/
def backoffDelay (attempt : Nat) (jitter : ℚ) : ℚ :=
  backoffBase attempt + jitter * backoffBase attempt

/-- Status reports issued through on_connection_status by auto_reconnect
(websocket_client.py:361-370). -/
inductive ReconnectReport where
  | reconnected
  | reconnectFailed (attempt : Nat)
  | maxAttemptsReached
deriving Repr, DecidableEq

/-- The connection-management state read and written by auto_reconnect
(websocket_client.py:27-30, 339-373).  `loopActive` is false once the
loop has executed its break. -/
structure ReconnectState where
  connected : Bool
  reconnect_attempts : Nat
  max_reconnect_attempts : Nat
  loopActive : Bool
deriving Repr, DecidableEq

/-- One iteration of the auto_reconnect while-loop
(websocket_client.py:340-373), given the outcome of connect() should it be
called.  Returns the new state, the status report issued (if any), and
whether connect() was invoked.  A successful connect() resets
reconnect_attempts to 0 (websocket_client.py:117 and 356). -/
def auto_reconnect_step (connectSucceeds : Bool) (s : ReconnectState) :
    ReconnectState × Option ReconnectReport × Bool :=
  if !s.loopActive then (s, none, false)
  else if !s.connected && s.reconnect_attempts < s.max_reconnect_attempts then
    if connectSucceeds then
      ({ s with connected := true, reconnect_attempts := 0 },
       some .reconnected, true)
    else
      ({ s with reconnect_attempts := s.reconnect_attempts + 1 },
       some (.reconnectFailed (s.reconnect_attempts + 1)), true)
  else if s.reconnect_attempts ≥ s.max_reconnect_attempts then
    ({ s with loopActive := false }, some .maxAttemptsReached, false)
  else (s, none, false)

/-- Run auto_reconnect over a list of prospective connect() outcomes,
collecting the reports issued and counting the connect() invocations. -/
def auto_reconnect_run (s : ReconnectState) (outcomes : List Bool) :
    ReconnectState × List ReconnectReport × Nat :=
  match outcomes with
  | [] => (s, [], 0)
  | o :: rest =>
    let r := auto_reconnect_step o s
    let r2 := auto_reconnect_run r.1 rest
    (r2.1, r.2.1.toList ++ r2.2.1, (if r.2.2 then 1 else 0) + r2.2.2)

/-- The client connection state read and written by send_frame
(websocket_client.py:27-28, 48-60, 149-174).  `websocketPresent` models
`self.websocket is not None`; `sent_times_len` is the length of the
self.sent_times list. -/
structure ClientNetState where
  connected : Bool
  websocketPresent : Bool
  frames_sent : Nat
  sent_times_len : Nat
deriving Repr, DecidableEq

/-- send_frame (websocket_client.py:149-174): return immediately when not
connected or without a websocket; otherwise encode (send nothing if the
encode fails), send, and update statistics on success.  A
ConnectionClosed during the send clears `connected`; any other exception
is only logged.  Returns the new state and the payload actually sent. -/
def send_frame (encoded : Option Enc) (outcome : FaceSwapServer.SendOutcome)
    (s : ClientNetState) : ClientNetState × Option Enc :=
  if !s.connected || !s.websocketPresent then (s, none)
  else
    match encoded with
    | none => (s, none)
    | some payload =>
      match outcome with
      | .ok =>
        ({ s with
           frames_sent := s.frames_sent + 1
           sent_times_len := s.sent_times_len + 1 },
         some payload)
      | .connectionClosed => ({ s with connected := false }, none)
      | .otherError => (s, none)

end FaceSwapClient

namespace FaceSwapServer

variable {Data Face Frame Enc : Type}

/-- C2: process_frame passes the input frame through unmodified when the
processors are not initialized or the connection has no registered
identity descriptor (websocket_server.py:127-134). -/
theorem process_frame_passthrough
    (processors : List (Face → Frame → Except Unit Frame))
    (s : ServerState Face Frame) (f : Frame) (c : ConnId)
    (h : s.processors_initialized = false ∨
         lookupFace s.client_source_faces c = none) :
    process_frame processors s f c = some f := by
  rcases h with h | h
  · simp [process_frame, h]
  · unfold process_frame
    rcases hinit : s.processors_initialized with _ | _
    · simp
    · simp [h]

/-- Witness for process_frame_passthrough at a concrete state. -/
theorem process_frame_passthrough_witness :
    process_frame ([] : List (Nat → Nat → Except Unit Nat))
      (⟨[], [], [], [], [], ⟨0, 0, 0, 0⟩, false⟩ : ServerState Nat Nat) 7 1 = some 7 :=
  process_frame_passthrough ([] : List (Nat → Nat → Except Unit Nat))
    (⟨[], [], [], [], [], ⟨0, 0, 0, 0⟩, false⟩ : ServerState Nat Nat) 7 1 (Or.inl rfl)

/-- C9: an envelope larger than 10 MiB is silently dropped — the state
(including the client registry) is unchanged and no reply is sent — and a
subsequent in-size ping on the same connection still receives a pong
(websocket_server.py:235-237, 311-320). -/
theorem oversized_message_silently_dropped
    (decodeFrame : Data → Option Frame) (getOneFace : Frame → Option Face)
    (s : ServerState Face Frame) (c : ConnId) (m p : InMsg Data)
    (hm : maxMessageSize < m.size)
    (hp : p.size ≤ maxMessageSize) (hping : p.parsed = some .ping) :
    handle_client_message decodeFrame getOneFace s c m = (s, []) ∧
    handle_client_message decodeFrame getOneFace s c p = (s, [OutMsg.pong]) := by
  constructor
  · unfold handle_client_message
    rw [if_pos hm]
  · unfold handle_client_message
    rw [if_neg (by omega), hping]

/-- Witness for oversized_message_silently_dropped on a concrete state. -/
theorem oversized_message_silently_dropped_witness :
    handle_client_message (fun d : Nat => some d) (fun _ : Nat => (none : Option Nat))
      (⟨[1], [(1, ⟨0⟩)], [], [], [], ⟨0, 0, 0, 0⟩, true⟩ : ServerState Nat Nat) 1
      ⟨maxMessageSize + 1, some .ping⟩
      = (⟨[1], [(1, ⟨0⟩)], [], [], [], ⟨0, 0, 0, 0⟩, true⟩, []) ∧
    handle_client_message (fun d : Nat => some d) (fun _ : Nat => (none : Option Nat))
      (⟨[1], [(1, ⟨0⟩)], [], [], [], ⟨0, 0, 0, 0⟩, true⟩ : ServerState Nat Nat) 1
      ⟨4, some .ping⟩
      = (⟨[1], [(1, ⟨0⟩)], [], [], [], ⟨0, 0, 0, 0⟩, true⟩, [OutMsg.pong]) :=
  oversized_message_silently_dropped _ _ _ 1 _ _
    (Nat.lt_succ_self _) (by norm_num [maxMessageSize]) rfl

/-- C3 counterexample: a source_face whose image fails to decode yields NO
reply at all — in particular no source_face_confirmation with status
error — contradicting the claim that a decode failure is answered with an
error confirmation (websocket_server.py:289-290 only logs). -/
theorem source_face_decode_failure_no_reply :
    (handle_client_message (fun _ : Nat => (none : Option Nat))
        (fun _ : Nat => (some 0 : Option Nat))
        (⟨[1], [(1, ⟨0⟩)], [], [], [], ⟨0, 0, 0, 0⟩, true⟩ : ServerState Nat Nat) 1
        ⟨10, some (.source_face (some 5))⟩).2 = [] ∧
    OutMsg.source_face_confirmation false ∉
      (handle_client_message (fun _ : Nat => (none : Option Nat))
        (fun _ : Nat => (some 0 : Option Nat))
        (⟨[1], [(1, ⟨0⟩)], [], [], [], ⟨0, 0, 0, 0⟩, true⟩ : ServerState Nat Nat) 1
        ⟨10, some (.source_face (some 5))⟩).2 := by
  constructor <;> decide

/-- C3 amended: a source_face with no detectable identity is answered with
a status=error confirmation and the state — registration and any prior
identity descriptor — is unchanged; a source_face whose image fails to
decode is dropped with no reply, also leaving the state unchanged
(websocket_server.py:259-298). -/
theorem source_face_failure_keeps_state
    (decodeFrame : Data → Option Frame) (getOneFace : Frame → Option Face)
    (s : ServerState Face Frame) (c : ConnId) (m : InMsg Data) (d : Data)
    (hsz : m.size ≤ maxMessageSize)
    (hm : m.parsed = some (.source_face (some d))) :
    (∀ img, decodeFrame d = some img → getOneFace img = none →
      handle_client_message decodeFrame getOneFace s c m
        = (s, [OutMsg.source_face_confirmation false])) ∧
    (decodeFrame d = none →
      handle_client_message decodeFrame getOneFace s c m = (s, [])) := by
  constructor
  · intro img hdec hface
    unfold handle_client_message
    rw [if_neg (by omega), hm]
    simp [hdec, hface]
  · intro hdec
    unfold handle_client_message
    rw [if_neg (by omega), hm]
    simp [hdec]

/-- Witness for source_face_failure_keeps_state: no face detected in a
concretely decoded image. -/
theorem source_face_failure_keeps_state_witness :
    handle_client_message (fun d : Nat => some d) (fun _ : Nat => (none : Option Nat))
      (⟨[1], [(1, ⟨0⟩)], [(1, 9)], [], [], ⟨0, 0, 0, 0⟩, true⟩ : ServerState Nat Nat) 1
      ⟨10, some (.source_face (some 5))⟩
      = (⟨[1], [(1, ⟨0⟩)], [(1, 9)], [], [], ⟨0, 0, 0, 0⟩, true⟩,
         [OutMsg.source_face_confirmation false]) :=
  (source_face_failure_keeps_state (fun d : Nat => some d)
      (fun _ : Nat => (none : Option Nat))
      (⟨[1], [(1, ⟨0⟩)], [(1, 9)], [], [], ⟨0, 0, 0, 0⟩, true⟩ : ServerState Nat Nat) 1
      ⟨10, some (.source_face (some 5))⟩ 5
      (by norm_num [maxMessageSize]) rfl).1 5 rfl rfl

/-- C5 counterexample: when the distributor send fails with an error other
than ConnectionClosed, the target connection is unregistered — its entry
disappears from the client set — contradicting the claim that the
connection stays registered with the registry unchanged
(websocket_server.py:212-214). -/
theorem distributor_other_error_unregisters :
    1 ∈ (⟨[1], [(1, ⟨0⟩)], [], [], [(1, 7)], ⟨0, 0, 0, 0⟩, true⟩ :
          ServerState Nat Nat).clients ∧
    ((frame_distributor_step (fun f : Nat => some f) .otherError
        (⟨[1], [(1, ⟨0⟩)], [], [], [(1, 7)], ⟨0, 0, 0, 0⟩, true⟩ :
          ServerState Nat Nat)).1).clients = [] := by
  constructor <;> decide

/-- C5 amended: when the distributor send to a registered connection
fails — with ConnectionClosed or with any other error — the entry is
dropped (nothing delivered) and the connection is unregistered in both
cases (websocket_server.py:205-214). -/
theorem distributor_send_failure_unregisters
    (encodeFrame : Frame → Option Enc) (s : ServerState Face Frame)
    (c : ConnId) (pf : Frame) (rest : List (ConnId × Frame)) (e : Enc)
    (hq : s.processed_frames_queue = (c, pf) :: rest)
    (henc : encodeFrame pf = some e) (hc : c ∈ s.clients) :
    frame_distributor_step encodeFrame .connectionClosed s
      = (unregister_client { s with processed_frames_queue := rest } c, none) ∧
    frame_distributor_step encodeFrame .otherError s
      = (unregister_client { s with processed_frames_queue := rest } c, none) := by
  constructor <;>
    · unfold frame_distributor_step
      rw [hq]
      simp [henc, hc]

/-- Witness for distributor_send_failure_unregisters on a concrete
state. -/
theorem distributor_send_failure_unregisters_witness :
    frame_distributor_step (fun f : Nat => some f) .connectionClosed
      (⟨[1], [(1, ⟨0⟩)], [], [], [(1, 7)], ⟨0, 0, 0, 0⟩, true⟩ :
        ServerState Nat Nat)
      = (unregister_client
          (⟨[1], [(1, ⟨0⟩)], [], [], [], ⟨0, 0, 0, 0⟩, true⟩ : ServerState Nat Nat) 1,
         none) :=
  (distributor_send_failure_unregisters (fun f : Nat => some f)
      (⟨[1], [(1, ⟨0⟩)], [], [], [(1, 7)], ⟨0, 0, 0, 0⟩, true⟩ : ServerState Nat Nat)
      1 7 [] 7 rfl rfl (by decide)).1

/-- C4 counterexample: a client registers an identity, sends one frame, the
pipeline raises on it, and over the whole run the server delivers no
processed_frame to anyone — the originating client does NOT receive a
frame for that input, contradicting the pass-through part of the claim
(process_frame returns None and the worker skips the enqueue,
websocket_server.py:154-156, 164-168). -/
theorem pipeline_failure_no_output_for_client :
    (serverRun (fun d : Nat => some d) (fun img : Nat => some img)
      [fun _ _ => .error ()] (fun f : Nat => some f)
      (⟨[], [], [], [], [], ⟨0, 0, 0, 0⟩, true⟩ : ServerState Nat Nat)
      [.connect 1,
       .clientMsg 1 ⟨10, some (.source_face (some 9))⟩,
       .clientMsg 1 ⟨10, some (.frame (some 5))⟩,
       .procStep, .distStep .ok, .distStep .ok]).2 = [] := by
  decide

/-- C4 amended: when the pipeline raises on the dequeued frame, the worker
catches the failure (process_frame returns None), drops the frame — the
processed queue, and hence the client's output, gains nothing — and
resumes polling with the rest of the queue and the state otherwise
intact (websocket_server.py:154-156, 158-184). -/
theorem pipeline_failure_drops_frame
    (processors : List (Face → Frame → Except Unit Frame))
    (s : ServerState Face Frame) (c : ConnId) (f : Frame)
    (rest : List (ConnId × Frame)) (face : Face)
    (hq : s.raw_frames_queue = (c, f) :: rest)
    (hinit : s.processors_initialized = true)
    (hface : lookupFace s.client_source_faces c = some face)
    (herr : runProcessors processors face f = .error ()) :
    frame_processor_worker_step processors s = { s with raw_frames_queue := rest } := by
  unfold frame_processor_worker_step
  rw [hq]
  simp [process_frame, hinit, hface, herr]

/-- Witness for pipeline_failure_drops_frame on a concrete state with an
always-raising processor. -/
theorem pipeline_failure_drops_frame_witness :
    frame_processor_worker_step [fun _ _ => .error ()]
      (⟨[1], [(1, ⟨0⟩)], [(1, 9)], [(1, 5)], [], ⟨0, 0, 0, 0⟩, true⟩ :
        ServerState Nat Nat)
      = (⟨[1], [(1, ⟨0⟩)], [(1, 9)], [], [], ⟨0, 0, 0, 0⟩, true⟩ :
          ServerState Nat Nat) :=
  pipeline_failure_drops_frame [fun _ _ => .error ()]
    (⟨[1], [(1, ⟨0⟩)], [(1, 9)], [(1, 5)], [], ⟨0, 0, 0, 0⟩, true⟩ :
      ServerState Nat Nat)
    1 5 [] 9 rfl rfl rfl rfl

end FaceSwapServer

namespace FaceSwapClient

/-- C10: send_frame on a disconnected client (connected flag false or no
websocket) returns immediately with nothing sent and the state — in
particular the statistics counters — unchanged; during a connected send,
a ConnectionClosed failure is caught and only clears the connected flag
(counters unchanged), and any other send failure is caught leaving the
state unchanged (websocket_client.py:149-174). -/
theorem send_frame_error_handling
    (enc : Option Enc) (s : ClientNetState) (payload : Enc) :
    ((s.connected = false ∨ s.websocketPresent = false) →
      ∀ o, send_frame enc o s = (s, none)) ∧
    (s.connected = true → s.websocketPresent = true → enc = some payload →
      send_frame enc .connectionClosed s = ({ s with connected := false }, none) ∧
      send_frame enc .otherError s = (s, none)) := by
  constructor
  · intro h o
    unfold send_frame
    rcases h with h | h <;> simp [h]
  · intro hc hw henc
    subst henc
    unfold send_frame
    simp [hc, hw]

end FaceSwapClient

namespace FaceSwapServer

variable {Data Face Frame Enc : Type}

/-- handle_client_message never pushes the raw queue above capacity. -/
theorem handle_client_message_raw_le (decodeFrame : Data → Option Frame)
    (getOneFace : Frame → Option Face) (s : ServerState Face Frame)
    (c : ConnId) (m : InMsg Data)
    (h : s.raw_frames_queue.length ≤ queueCapacity) :
    ((handle_client_message decodeFrame getOneFace s c m).1).raw_frames_queue.length
      ≤ queueCapacity := by
  rcases m with ⟨sz, parsed⟩
  unfold handle_client_message
  dsimp only
  by_cases hsz : sz > maxMessageSize
  · rw [if_pos hsz]; exact h
  · rw [if_neg hsz]
    rcases parsed with _ | pm
    · exact h
    · rcases pm with d | d | _ | _ | _
      · rcases d with _ | data
        · exact h
        · dsimp only
          rcases hdec : decodeFrame data with _ | f
          · exact h
          · dsimp only
            split
            · simp
              omega
            · exact h
      · rcases d with _ | data
        · exact h
        · dsimp only
          rcases hdec : decodeFrame data with _ | img
          · exact h
          · dsimp only
            rcases hface : getOneFace img with _ | face
            · exact h
            · exact h
      · exact h
      · exact h
      · exact h

/-- A processor-worker iteration only shortens the raw queue. -/
theorem frame_processor_worker_step_raw_le
    (processors : List (Face → Frame → Except Unit Frame))
    (s : ServerState Face Frame)
    (h : s.raw_frames_queue.length ≤ queueCapacity) :
    ((frame_processor_worker_step processors s)).raw_frames_queue.length
      ≤ queueCapacity := by
  rcases hq : s.raw_frames_queue with _ | ⟨⟨c2, f2⟩, rest⟩
  · unfold frame_processor_worker_step
    rw [hq]
    exact h
  · have h2 : rest.length + 1 ≤ queueCapacity := by
      rw [hq] at h
      simpa using h
    unfold frame_processor_worker_step
    rw [hq]
    dsimp only
    split
    · split
      · simp
        omega
      · simp
        omega
    · simp
      omega

/-- A distributor iteration leaves the raw queue untouched. -/
theorem frame_distributor_step_raw_eq (encodeFrame : Frame → Option Enc)
    (outcome : SendOutcome) (s : ServerState Face Frame) :
    ((frame_distributor_step encodeFrame outcome s).1).raw_frames_queue
      = s.raw_frames_queue := by
  rcases hq : s.processed_frames_queue with _ | ⟨⟨c2, pf⟩, rest⟩
  · unfold frame_distributor_step
    rw [hq]
  · unfold frame_distributor_step
    rw [hq]
    dsimp only
    rcases henc : encodeFrame pf with _ | e
    · rfl
    · dsimp only
      split
      · cases outcome <;> simp [unregister_client]
      · rfl

/-- One server transition preserves the raw-queue capacity bound. -/
theorem serverStep_raw_le (decodeFrame : Data → Option Frame)
    (getOneFace : Frame → Option Face)
    (processors : List (Face → Frame → Except Unit Frame))
    (encodeFrame : Frame → Option Enc)
    (s : ServerState Face Frame) (e : Event Data)
    (h : s.raw_frames_queue.length ≤ queueCapacity) :
    ((serverStep decodeFrame getOneFace processors encodeFrame s e).1).raw_frames_queue.length
      ≤ queueCapacity := by
  cases e with
  | connect c => simpa [serverStep, register_client] using h
  | disconnect c => simpa [serverStep, unregister_client] using h
  | clientMsg c m =>
    exact handle_client_message_raw_le decodeFrame getOneFace s c m h
  | procStep => exact frame_processor_worker_step_raw_le processors s h
  | distStep outcome =>
    simpa [serverStep, frame_distributor_step_raw_eq] using h

/-- Evaluation of handle_client_message on an in-size, decodable frame
message: enqueue below capacity, drop at capacity. -/
theorem handle_client_message_frame_eval (decodeFrame : Data → Option Frame)
    (getOneFace : Frame → Option Face) (s : ServerState Face Frame)
    (c : ConnId) (d : Data) (f : Frame) (sz : Nat)
    (hsz : sz ≤ maxMessageSize) (hdec : decodeFrame d = some f) :
    (handle_client_message decodeFrame getOneFace s c
        ⟨sz, some (.frame (some d))⟩).1
      = if s.raw_frames_queue.length < queueCapacity then
          { s with
            raw_frames_queue := s.raw_frames_queue ++ [(c, f)]
            stats := { s.stats with
                       frames_received := s.stats.frames_received + 1 } }
        else s := by
  unfold handle_client_message
  rw [if_neg (by dsimp only; omega)]
  dsimp only
  rw [hdec]
  dsimp only
  split <;> rfl

/-- Filling the raw queue with n decodable frames while the processing
pipeline is stalled retains min(previous length + n, capacity) frames. -/
theorem serverRun_frames_fill (decodeFrame : Data → Option Frame)
    (getOneFace : Frame → Option Face)
    (processors : List (Face → Frame → Except Unit Frame))
    (encodeFrame : Frame → Option Enc)
    (c : ConnId) (d : Data) (f : Frame) (sz : Nat)
    (hsz : sz ≤ maxMessageSize) (hdec : decodeFrame d = some f) :
    ∀ (n : Nat) (s : ServerState Face Frame),
      s.raw_frames_queue.length ≤ queueCapacity →
      ((serverRun decodeFrame getOneFace processors encodeFrame s
          (List.replicate n (Event.clientMsg c ⟨sz, some (.frame (some d))⟩))).1).raw_frames_queue.length
        = min (s.raw_frames_queue.length + n) queueCapacity := by
  intro n
  induction n with
  | zero =>
    intro s h
    simp [serverRun]
    omega
  | succ k ih =>
    intro s h
    rw [List.replicate_succ]
    unfold serverRun
    simp only [serverStep]
    rw [handle_client_message_frame_eval decodeFrame getOneFace s c d f sz hsz hdec]
    by_cases hlt : s.raw_frames_queue.length < queueCapacity
    · rw [if_pos hlt]
      rw [ih _ (by simp; omega)]
      simp
      omega
    · rw [if_neg hlt]
      rw [ih s h]
      omega

/-- C6: the ingress (raw frames) queue never exceeds its capacity of 50
under any event sequence, and sending n decodable frames into an
initially empty queue while the worker is stalled retains exactly
min(n, 50) of them — the remainder are dropped, never blocking the
receive path (websocket_server.py:32, 248-255). -/
theorem raw_queue_capacity_invariant :
    (∀ (decodeFrame : Data → Option Frame) (getOneFace : Frame → Option Face)
      (processors : List (Face → Frame → Except Unit Frame))
      (encodeFrame : Frame → Option Enc)
      (s : ServerState Face Frame) (events : List (Event Data)),
      s.raw_frames_queue.length ≤ queueCapacity →
      ((serverRun decodeFrame getOneFace processors encodeFrame s events).1).raw_frames_queue.length
        ≤ queueCapacity) ∧
    (∀ (decodeFrame : Data → Option Frame) (getOneFace : Frame → Option Face)
      (processors : List (Face → Frame → Except Unit Frame))
      (encodeFrame : Frame → Option Enc)
      (s : ServerState Face Frame) (c : ConnId) (d : Data) (f : Frame)
      (sz n : Nat),
      sz ≤ maxMessageSize → decodeFrame d = some f →
      s.raw_frames_queue = [] →
      ((serverRun decodeFrame getOneFace processors encodeFrame s
          (List.replicate n (Event.clientMsg c ⟨sz, some (.frame (some d))⟩))).1).raw_frames_queue.length
        = min n queueCapacity) := by
  constructor
  · intro decodeFrame getOneFace processors encodeFrame s events
    induction events generalizing s with
    | nil => intro h; exact h
    | cons e rest ih =>
      intro h
      unfold serverRun
      exact ih _ (serverStep_raw_le decodeFrame getOneFace processors encodeFrame s e h)
  · intro decodeFrame getOneFace processors encodeFrame s c d f sz n hsz hdec hempty
    have := serverRun_frames_fill decodeFrame getOneFace processors encodeFrame
      c d f sz hsz hdec n s (by rw [hempty]; simp [queueCapacity])
    rw [hempty] at this
    simpa using this

/-- Witness for raw_queue_capacity_invariant: 60 frames into an empty
queue retain exactly 50. -/
theorem raw_queue_capacity_invariant_witness :
    ((serverRun (fun d : Nat => some d) (fun _ : Nat => (none : Option Nat))
        [] (fun f : Nat => some f)
        (⟨[1], [(1, ⟨0⟩)], [], [], [], ⟨0, 0, 0, 0⟩, true⟩ : ServerState Nat Nat)
        (List.replicate 60 (Event.clientMsg 1 ⟨10, some (.frame (some 5))⟩))).1).raw_frames_queue.length
      = min 60 queueCapacity :=
  raw_queue_capacity_invariant.2 (fun d : Nat => some d)
    (fun _ : Nat => (none : Option Nat)) [] (fun f : Nat => some f)
    (⟨[1], [(1, ⟨0⟩)], [], [], [], ⟨0, 0, 0, 0⟩, true⟩ : ServerState Nat Nat)
    1 5 5 10 60 (by norm_num [maxMessageSize]) rfl rfl

/-- A processor chain built from provenance-preserving processors is
provenance-preserving. -/
theorem runProcessors_tag (orig : Frame → ConnId)
    (ps : List (Face → Frame → Except Unit Frame))
    (hps : ProcessorsTagPreserving orig ps) :
    ∀ (face : Face) (f f2 : Frame),
      runProcessors ps face f = .ok f2 → orig f2 = orig f := by
  induction ps with
  | nil =>
    intro face f f2 hrun
    unfold runProcessors at hrun
    injection hrun with h
    rw [h]
  | cons p rest ih =>
    intro face f f2 hrun
    unfold runProcessors at hrun
    revert hrun
    cases hp : p face f with
    | ok f1 =>
      intro hrun
      have hrest : ProcessorsTagPreserving orig rest :=
        fun q hq => hps q (List.mem_cons_of_mem _ hq)
      have h1 := ih hrest face f1 f2 hrun
      rw [h1]
      exact hps p (List.mem_cons_self p rest) face f f1 hp
    | error e =>
      intro hrun
      cases hrun

/-- process_frame preserves provenance: its output frame (when any)
originates from the same client as its input frame. -/
theorem process_frame_tag (orig : Frame → ConnId)
    (processors : List (Face → Frame → Except Unit Frame))
    (s : ServerState Face Frame) (f : Frame) (c : ConnId) (pf : Frame)
    (hps : ProcessorsTagPreserving orig processors)
    (hpf : process_frame processors s f c = some pf) :
    orig pf = orig f := by
  unfold process_frame at hpf
  revert hpf
  cases hb : s.processors_initialized with
  | false =>
    intro hpf
    simp at hpf
    rw [hpf]
  | true =>
    rw [if_neg (by simp)]
    cases hl : lookupFace s.client_source_faces c with
    | none =>
      intro hpf
      simp at hpf
      rw [hpf]
    | some face =>
      dsimp only
      cases hr : runProcessors processors face f with
      | ok pf1 =>
        intro hpf
        simp at hpf
        rw [← hpf]
        exact runProcessors_tag orig processors hps face f pf1 hr
      | error e =>
        intro hpf
        cases hpf

/-- register_client touches neither frame queue. -/
theorem register_client_tagged (orig : Frame → ConnId)
    (s : ServerState Face Frame) (c : ConnId)
    (hs : QueuesTagged orig s) :
    QueuesTagged orig (register_client s c) := hs

/-- unregister_client touches neither frame queue. -/
theorem unregister_client_tagged (orig : Frame → ConnId)
    (s : ServerState Face Frame) (c : ConnId)
    (hs : QueuesTagged orig s) :
    QueuesTagged orig (unregister_client s c) := hs

/-- handle_client_message keeps both queues provenance-tagged: the only
enqueue pairs the decoded frame with the connection it arrived on. -/
theorem handle_client_message_tagged (decodeFrame : Data → Option Frame)
    (getOneFace : Frame → Option Face) (orig : Frame → ConnId)
    (s : ServerState Face Frame) (c : ConnId) (m : InMsg Data)
    (hmsg : ∀ d f, m.parsed = some (.frame (some d)) →
      decodeFrame d = some f → orig f = c)
    (hs : QueuesTagged orig s) :
    QueuesTagged orig (handle_client_message decodeFrame getOneFace s c m).1 := by
  rcases m with ⟨sz, parsed⟩
  unfold handle_client_message
  dsimp only
  by_cases hsz : sz > maxMessageSize
  · rw [if_pos hsz]; exact hs
  · rw [if_neg hsz]
    rcases parsed with _ | pm
    · exact hs
    · rcases pm with d | d | _ | _ | _
      · rcases d with _ | data
        · exact hs
        · dsimp only
          rcases hdec : decodeFrame data with _ | f
          · exact hs
          · dsimp only
            have hf : orig f = c := hmsg data f rfl hdec
            split
            · refine ⟨?_, hs.2⟩
              intro p hp
              rcases List.mem_append.mp hp with hp | hp
              · exact hs.1 p hp
              · rw [List.mem_singleton] at hp
                subst hp
                exact hf
            · exact hs
      · rcases d with _ | data
        · exact hs
        · dsimp only
          rcases hdec : decodeFrame data with _ | img
          · exact hs
          · dsimp only
            rcases hface : getOneFace img with _ | face
            · exact hs
            · exact hs
      · exact hs
      · exact hs
      · exact hs

/-- A processor-worker iteration keeps both queues provenance-tagged: the
processed result is enqueued under the same connection the raw frame was
dequeued with. -/
theorem frame_processor_worker_step_tagged (orig : Frame → ConnId)
    (processors : List (Face → Frame → Except Unit Frame))
    (s : ServerState Face Frame)
    (hps : ProcessorsTagPreserving orig processors)
    (hs : QueuesTagged orig s) :
    QueuesTagged orig (frame_processor_worker_step processors s) := by
  rcases hq : s.raw_frames_queue with _ | ⟨⟨c2, f2⟩, rest⟩
  · unfold frame_processor_worker_step
    rw [hq]
    exact hs
  · have hcf : orig f2 = c2 :=
      hs.1 (c2, f2) (by rw [hq]; exact List.mem_cons_self _ _)
    have hrest : ∀ p ∈ rest, orig p.2 = p.1 := by
      intro p hp
      exact hs.1 p (by rw [hq]; exact List.mem_cons_of_mem _ hp)
    unfold frame_processor_worker_step
    rw [hq]
    dsimp only
    rcases hpf : process_frame processors { s with raw_frames_queue := rest } f2 c2
      with _ | pf
    · exact ⟨hrest, hs.2⟩
    · have hopf : orig pf = orig f2 :=
        process_frame_tag orig processors _ f2 c2 pf hps hpf
      dsimp only
      split
      · refine ⟨hrest, ?_⟩
        intro p hp
        rcases List.mem_append.mp hp with hp | hp
        · exact hs.2 p hp
        · rw [List.mem_singleton] at hp
          subst hp
          rw [hopf]
          exact hcf
      · exact ⟨hrest, hs.2⟩

/-- A distributor iteration keeps both queues provenance-tagged, and the
envelope it delivers (if any) goes to the connection its frame originates
from. -/
theorem frame_distributor_step_tagged (orig : Frame → ConnId)
    (encodeFrame : Frame → Option Enc) (outcome : SendOutcome)
    (s : ServerState Face Frame)
    (hs : QueuesTagged orig s) :
    QueuesTagged orig (frame_distributor_step encodeFrame outcome s).1 ∧
    (∀ t pf, (frame_distributor_step encodeFrame outcome s).2 = some (t, pf) →
      orig pf = t) := by
  rcases hq : s.processed_frames_queue with _ | ⟨⟨c2, pf2⟩, rest⟩
  · unfold frame_distributor_step
    rw [hq]
    exact ⟨hs, by intro t pf h; cases h⟩
  · have hcpf : orig pf2 = c2 :=
      hs.2 (c2, pf2) (by rw [hq]; exact List.mem_cons_self _ _)
    have hrest : ∀ p ∈ rest, orig p.2 = p.1 := by
      intro p hp
      exact hs.2 p (by rw [hq]; exact List.mem_cons_of_mem _ hp)
    unfold frame_distributor_step
    rw [hq]
    dsimp only
    rcases henc : encodeFrame pf2 with _ | e
    · exact ⟨⟨hs.1, hrest⟩, by intro t pf h; cases h⟩
    · dsimp only
      split
      · cases outcome with
        | ok =>
          refine ⟨⟨hs.1, hrest⟩, ?_⟩
          intro t pf h
          simp only [Option.some.injEq, Prod.mk.injEq] at h
          obtain ⟨rfl, rfl⟩ := h
          exact hcpf
        | connectionClosed =>
          exact ⟨⟨hs.1, hrest⟩, by intro t pf h; cases h⟩
        | otherError =>
          exact ⟨⟨hs.1, hrest⟩, by intro t pf h; cases h⟩
      · exact ⟨⟨hs.1, hrest⟩, by intro t pf h; cases h⟩

/-- One server transition keeps both queues provenance-tagged and delivers
only to the originating connection. -/
theorem serverStep_tagged (decodeFrame : Data → Option Frame)
    (getOneFace : Frame → Option Face)
    (processors : List (Face → Frame → Except Unit Frame))
    (encodeFrame : Frame → Option Enc) (orig : Frame → ConnId)
    (s : ServerState Face Frame) (e : Event Data)
    (hps : ProcessorsTagPreserving orig processors)
    (he : EventTagged decodeFrame orig e)
    (hs : QueuesTagged orig s) :
    QueuesTagged orig (serverStep decodeFrame getOneFace processors encodeFrame s e).1 ∧
    (∀ t pf, (t, pf) ∈ (serverStep decodeFrame getOneFace processors encodeFrame s e).2 →
      orig pf = t) := by
  cases e with
  | connect c =>
    exact ⟨register_client_tagged orig s c hs,
           by intro t pf h; exact absurd h (List.not_mem_nil _)⟩
  | disconnect c =>
    exact ⟨unregister_client_tagged orig s c hs,
           by intro t pf h; exact absurd h (List.not_mem_nil _)⟩
  | clientMsg c m =>
    exact ⟨handle_client_message_tagged decodeFrame getOneFace orig s c m he hs,
           by intro t pf h; exact absurd h (List.not_mem_nil _)⟩
  | procStep =>
    exact ⟨frame_processor_worker_step_tagged orig processors s hps hs,
           by intro t pf h; exact absurd h (List.not_mem_nil _)⟩
  | distStep outcome =>
    have h2 := frame_distributor_step_tagged orig encodeFrame outcome s hs
    refine ⟨h2.1, ?_⟩
    intro t pf hmem
    have hmem2 : (t, pf) ∈ (frame_distributor_step encodeFrame outcome s).2.toList :=
      hmem
    rcases ho : (frame_distributor_step encodeFrame outcome s).2 with _ | ⟨t2, pf2⟩
    · rw [ho] at hmem2
      exact absurd hmem2 (List.not_mem_nil _)
    · rw [ho] at hmem2
      simp only [Option.toList_some, List.mem_singleton, Prod.mk.injEq] at hmem2
      obtain ⟨rfl, rfl⟩ := hmem2
      exact h2.2 t pf ho

/-- C1: client isolation of the relay.  Provenance of frames is witnessed
by an abstract tagging `orig`; provided every frame arriving on a
connection originates from that connection and the pipeline preserves
provenance, every processed_frame envelope the distribution loop delivers
over any event sequence goes to the connection its content originates
from — output derived from client A frames is never sent to another
client (websocket_server.py:158-179, 186-214). -/
theorem processed_frame_isolation (decodeFrame : Data → Option Frame)
    (getOneFace : Frame → Option Face)
    (processors : List (Face → Frame → Except Unit Frame))
    (encodeFrame : Frame → Option Enc) (orig : Frame → ConnId)
    (s : ServerState Face Frame) (events : List (Event Data))
    (hs : QueuesTagged orig s)
    (hev : ∀ e ∈ events, EventTagged decodeFrame orig e)
    (hps : ProcessorsTagPreserving orig processors) :
    ∀ t pf,
      (t, pf) ∈ (serverRun decodeFrame getOneFace processors encodeFrame s events).2 →
      orig pf = t := by
  suffices H : ∀ (evs : List (Event Data)) (s2 : ServerState Face Frame),
      QueuesTagged orig s2 → (∀ e ∈ evs, EventTagged decodeFrame orig e) →
      ∀ t pf,
        (t, pf) ∈ (serverRun decodeFrame getOneFace processors encodeFrame s2 evs).2 →
        orig pf = t from H events s hs hev
  intro evs
  induction evs with
  | nil =>
    intro s2 hs2 hev2 t pf h
    simp [serverRun] at h
  | cons e rest ih =>
    intro s2 hs2 hev2 t pf h
    have hstep := serverStep_tagged decodeFrame getOneFace processors encodeFrame
      orig s2 e hps (hev2 e (List.mem_cons_self _ _)) hs2
    have h2 : (t, pf) ∈
        (serverStep decodeFrame getOneFace processors encodeFrame s2 e).2 ++
        (serverRun decodeFrame getOneFace processors encodeFrame
          (serverStep decodeFrame getOneFace processors encodeFrame s2 e).1 rest).2 := h
    rcases List.mem_append.mp h2 with h3 | h3
    · exact hstep.2 t pf h3
    · exact ih _ hstep.1 (fun e2 he2 => hev2 e2 (List.mem_cons_of_mem _ he2)) t pf h3

/-- Witness for processed_frame_isolation: two clients each send one frame
through the whole pipeline; client 2's delivered output indeed originates
from client 2 (provenance is the identity on Nat-coded frames). -/
theorem processed_frame_isolation_witness :
    (2, 2) ∈ (serverRun (fun d : Nat => some d) (fun _ : Nat => (none : Option Nat))
      [] (fun f : Nat => some f)
      (⟨[], [], [], [], [], ⟨0, 0, 0, 0⟩, false⟩ : ServerState Nat Nat)
      [.connect 1, .connect 2,
       .clientMsg 1 ⟨10, some (.frame (some 1))⟩,
       .clientMsg 2 ⟨10, some (.frame (some 2))⟩,
       .procStep, .procStep, .distStep .ok, .distStep .ok]).2 ∧
    id (2 : ConnId) = 2 :=
  ⟨by decide,
   processed_frame_isolation (fun d : Nat => some d) (fun _ : Nat => (none : Option Nat))
    [] (fun f : Nat => some f) id
    (⟨[], [], [], [], [], ⟨0, 0, 0, 0⟩, false⟩ : ServerState Nat Nat)
    [.connect 1, .connect 2,
     .clientMsg 1 ⟨10, some (.frame (some 1))⟩,
     .clientMsg 2 ⟨10, some (.frame (some 2))⟩,
     .procStep, .procStep, .distStep .ok, .distStep .ok]
    ⟨by simp, by simp⟩
    (by
      intro e he
      fin_cases he <;> simp [EventTagged])
    (by intro p hp; cases hp)
    2 2 (by decide)⟩

end FaceSwapServer

namespace FaceSwapClient

/-- C7: for attempts 1..10 and any jitter draw in [0.1, 0.3] the computed
delay equals min(2^n, 60)·(1+jitter), lies within [2^n, 2^n·1.3] with n
capped at 6, and delays strictly increase across successive attempts
until the 60-second cap is reached at attempt 6
(websocket_client.py:344-352). -/
theorem backoff_delay_bounds (n : Nat) (j : ℚ)
    (h1 : 1 ≤ n) (h10 : n ≤ 10) (hj1 : 1/10 ≤ j) (hj2 : j ≤ 3/10) :
    backoffDelay n j = backoffBase n * (1 + j) ∧
    (2 : ℚ) ^ min n 6 ≤ backoffDelay n j ∧
    backoffDelay n j ≤ (2 : ℚ) ^ min n 6 * (13/10) ∧
    (∀ j2, 1/10 ≤ j2 → j2 ≤ 3/10 → n + 1 ≤ 6 →
      backoffDelay n j < backoffDelay (n + 1) j2) := by
  refine ⟨by unfold backoffDelay; ring, ?_, ?_, ?_⟩
  · interval_cases n <;>
      · simp only [backoffDelay, backoffBase]
        norm_num
        linarith
  · interval_cases n <;>
      · simp only [backoffDelay, backoffBase]
        norm_num
        linarith
  · intro j2 hj21 hj22 hle
    interval_cases n <;>
      · simp only [backoffDelay, backoffBase]
        norm_num
        linarith

/-- Witness for backoff_delay_bounds at attempt 3 with jitter 1/5. -/
theorem backoff_delay_bounds_witness :
    backoffDelay 3 (1/5) = backoffBase 3 * (1 + 1/5) ∧
    (2 : ℚ) ^ min 3 6 ≤ backoffDelay 3 (1/5) ∧
    backoffDelay 3 (1/5) ≤ (2 : ℚ) ^ min 3 6 * (13/10) ∧
    (∀ j2, 1/10 ≤ j2 → j2 ≤ 3/10 → 3 + 1 ≤ 6 →
      backoffDelay 3 (1/5) < backoffDelay (3 + 1) j2) :=
  backoff_delay_bounds 3 (1/5) (by norm_num) (by norm_num)
    (by norm_num) (by norm_num)

/-- Once the auto_reconnect loop has executed its break, further
iterations change nothing, issue no reports and never call connect(). -/
theorem auto_reconnect_run_inactive (s : ReconnectState) (outcomes : List Bool)
    (h : s.loopActive = false) :
    auto_reconnect_run s outcomes = (s, [], 0) := by
  induction outcomes with
  | nil => rfl
  | cons o rest ih =>
    unfold auto_reconnect_run auto_reconnect_step
    simp [h, ih]

/-- C8: with the attempt counter at max_reconnect_attempts and no
connection, the loop calls connect() zero more times over any future
outcomes, its first report is the permanent-failure report, and the loop
exits (loopActive false); and whenever the loop does attempt a connect
that succeeds, the attempt counter is reset to zero
(websocket_client.py:339-373, 117). -/
theorem auto_reconnect_terminal :
    (∀ (s : ReconnectState) (outcomes : List Bool),
      s.loopActive = true → s.connected = false →
      s.max_reconnect_attempts ≤ s.reconnect_attempts →
      (auto_reconnect_run s outcomes).2.2 = 0 ∧
      (outcomes ≠ [] →
        (auto_reconnect_run s outcomes).2.1.head? = some .maxAttemptsReached ∧
        ((auto_reconnect_run s outcomes).1).loopActive = false)) ∧
    (∀ s : ReconnectState, s.loopActive = true → s.connected = false →
      s.reconnect_attempts < s.max_reconnect_attempts →
      (auto_reconnect_step true s).1.reconnect_attempts = 0) := by
  constructor
  · intro s outcomes hact hconn hmax
    cases outcomes with
    | nil => exact ⟨rfl, by simp⟩
    | cons o rest =>
      have hstep : auto_reconnect_step o s =
          ({ s with loopActive := false }, some .maxAttemptsReached, false) := by
        unfold auto_reconnect_step
        simp [hact, hconn, Nat.not_lt.mpr hmax, hmax]
      have hrest : auto_reconnect_run { s with loopActive := false } rest
          = ({ s with loopActive := false }, [], 0) :=
        auto_reconnect_run_inactive _ rest rfl
      unfold auto_reconnect_run
      rw [hstep]
      simp [hrest]
  · intro s hact hconn hlt
    unfold auto_reconnect_step
    simp [hact, hconn, hlt]

/-- Witness for auto_reconnect_terminal: exhausted session makes no further
connect() calls over two more iterations, and a successful attempt resets
the counter. -/
theorem auto_reconnect_terminal_witness :
    (auto_reconnect_run (⟨false, 10, 10, true⟩ : ReconnectState)
        [true, false]).2.2 = 0 ∧
    (auto_reconnect_step true (⟨false, 3, 10, true⟩ : ReconnectState)).1.reconnect_attempts
      = 0 :=
  ⟨(auto_reconnect_terminal.1 (⟨false, 10, 10, true⟩ : ReconnectState)
      [true, false] rfl rfl (by norm_num)).1,
   auto_reconnect_terminal.2 (⟨false, 3, 10, true⟩ : ReconnectState)
     rfl rfl (by norm_num)⟩

/-- Witness for send_frame_error_handling: disconnected no-op on a concrete
state. -/
theorem send_frame_error_handling_witness :
    send_frame (some 3) .ok (⟨false, true, 5, 5⟩ : ClientNetState)
      = ((⟨false, true, 5, 5⟩ : ClientNetState), none) ∧
    send_frame (some 3) .connectionClosed (⟨true, true, 5, 5⟩ : ClientNetState)
      = ((⟨false, true, 5, 5⟩ : ClientNetState), none) :=
  ⟨(send_frame_error_handling (some 3) (⟨false, true, 5, 5⟩ : ClientNetState) 3).1
      (Or.inl rfl) .ok,
   ((send_frame_error_handling (some 3) (⟨true, true, 5, 5⟩ : ClientNetState) 3).2
      rfl rfl rfl).1⟩

end FaceSwapClient
